import Mathlib

/-!
  Verification development for the InstaDeploy control plane
  (`control-plane/manager.py`, `control-plane/main.py`,
  `control-plane/models.py`, `control-plane/schemas.py`).

  The Python source is shallowly embedded as pure Lean functions:

  * `ConnectionManager` mirrors `manager.py`: two dicts keyed by agent id
    (modelled as association lists), with `connect`, `disconnect`,
    `send_command` and `is_connected` translated operation by operation.
    A WebSocket is identified by a `Nat` handle; `connect` additionally
    returns the list of WebSocket handles it closed during the call, so
    that "the old session is torn down" claims become statements about
    that trace (the source's `connect` performs no close, so the trace is
    always empty).
  * `DB` mirrors the durable store rows of `models.py` (`Agent`,
    `Deployment`, `Job`), each table an insertion-ordered list; ORM
    `select ... first()` becomes `find?`, an ORM in-place update plus
    commit becomes a keyed replace.
  * `handle_response` embeds the reply-processing body of the WebSocket
    read loop in `main.py` (lines 141-171); `agent_teardown` embeds its
    `finally` block (lines 177-188); `deploy_project`, `stop_project`
    and `get_project_status` embed the REST handlers. Python truthiness
    of `if job.deployment_id:` and `if request.agent_id:` (0 is falsy)
    is translated explicitly.

  Timestamps (`datetime.utcnow()`) are modelled as `Nat` ticks supplied
  by the caller; the fresh UUID of a job is likewise a `String` argument.
-/

namespace InstaDeploy

/-! ## Association-list maps (model of Python dict) -/

/-- Lookup in an association list keyed by `Nat`, the model of
`d.get(k)` / `d[k]` on a Python dict. -/
def lookupA {α : Type} : List (Nat × α) → Nat → Option α
  | [], _ => none
  | p :: t, k => if p.1 = k then some p.2 else lookupA t k

/-- Remove a key, the model of `del d[k]`. -/
def eraseA {α : Type} : List (Nat × α) → Nat → List (Nat × α)
  | [], _ => []
  | p :: t, k => if p.1 = k then eraseA t k else p :: eraseA t k

/-- Insert or overwrite a key, the model of `d[k] = v`. -/
def insertA {α : Type} (l : List (Nat × α)) (k : Nat) (v : α) : List (Nat × α) :=
  (k, v) :: eraseA l k

/-- Keys of the association list are pairwise distinct, as in a dict. -/
def nodupKeys {α : Type} (l : List (Nat × α)) : Prop :=
  (l.map Prod.fst).Nodup

instance nodupKeysDecidable {α : Type} (l : List (Nat × α)) : Decidable (nodupKeys l) :=
  inferInstanceAs (Decidable ((l.map Prod.fst).Nodup))

/-! ## Keyed tables (model of ORM select / in-place update) -/

/-- First row whose key equals `k`: the model of
`session.exec(select(T).where(T.key == k)).first()`. -/
def findBy {α β : Type} [DecidableEq β] (key : α → β) : List α → β → Option α
  | [], _ => none
  | x :: t, k => if key x = k then some x else findBy key t k

/-- Overwrite every row whose key equals `k` with `y`: the model of
mutating the fetched ORM row and committing (keys are primary, so at most
one row is affected in any well-formed table). -/
def replaceBy {α β : Type} [DecidableEq β] (key : α → β) (l : List α) (k : β) (y : α) :
    List α :=
  l.map (fun x => if key x = k then y else x)

/-! ## Wire-protocol enums (`schemas.py`) -/

/-- Command types sent from control plane to agent (`CommandType`). -/
inductive CommandType where
  | DEPLOY_COMPOSE
  | STOP_COMPOSE
  | STATUS
  | HEALTH_CHECK
deriving DecidableEq, Repr

/-- The `.value` of a `CommandType` member. -/
def CommandType.value : CommandType → String
  | .DEPLOY_COMPOSE => "DEPLOY_COMPOSE"
  | .STOP_COMPOSE => "STOP_COMPOSE"
  | .STATUS => "STATUS"
  | .HEALTH_CHECK => "HEALTH_CHECK"

/-- Response statuses reported by agents (`ResponseStatus`). -/
inductive ResponseStatus where
  | COMPLETED
  | FAILED
  | IN_PROGRESS
  | QUEUED
deriving DecidableEq, Repr

/-- The source stores `response.status.value.lower()` into the job row;
this is that lowercased string, per member. -/
def ResponseStatus.valueLower : ResponseStatus → String
  | .COMPLETED => "completed"
  | .FAILED => "failed"
  | .IN_PROGRESS => "in_progress"
  | .QUEUED => "queued"

/-- Reply message from an agent (`Response` in `schemas.py`); the opaque
`data` field is never read by the control plane and is omitted. -/
structure Response where
  job_id : String
  status : ResponseStatus
  logs : String
  error : Option String
deriving DecidableEq, Repr

/-! ## Durable rows (`models.py`) -/

/-- Agent row. `last_seen` / `created_at` are tick counters. -/
structure Agent where
  id : Nat
  hostname : String
  ip_address : Option String
  status : String
  last_seen : Nat
  version : Option String
  architecture : Option String
  created_at : Nat
deriving DecidableEq, Repr

/-- Deployment row. -/
structure Deployment where
  id : Nat
  project_name : String
  agent_id : Nat
  status : String
  last_logs : Option String
  last_error : Option String
  created_at : Nat
  updated_at : Nat
deriving DecidableEq, Repr

/-- Job row; `id` is the command's correlation UUID. -/
structure Job where
  id : String
  deployment_id : Option Nat
  agent_id : Nat
  command_type : String
  status : String
  logs : Option String
  error : Option String
  created_at : Nat
  updated_at : Nat
deriving DecidableEq, Repr

/-- The durable store: one insertion-ordered list per table, plus the
autoincrement counter handing out deployment primary keys. -/
structure DB where
  agents : List Agent
  deployments : List Deployment
  jobs : List Job
  next_dep_id : Nat
deriving DecidableEq, Repr

/-! ## Connection manager (`manager.py`) -/

/-- In-memory state of `ConnectionManager`: `active_connections` maps
agent id to a WebSocket handle, `agent_hostnames` maps agent id to the
hostname recorded for logging. -/
structure ConnectionManager where
  active_connections : List (Nat × Nat)
  agent_hostnames : List (Nat × String)
deriving DecidableEq, Repr

/-- The freshly constructed manager (`ConnectionManager.__init__`): both
dicts empty. -/
def initCM : ConnectionManager := ⟨[], []⟩

/-- Model of `ConnectionManager.connect`: accept the socket and store it
in both maps, overwriting any previous entry for the agent id. The second
component of the result is the list of WebSocket handles closed during
the call — the source closes none, so it is `[]`. -/
def ConnectionManager.connect (cm : ConnectionManager) (agent_id : Nat)
    (hostname : String) (websocket : Nat) : ConnectionManager × List Nat :=
  ({ active_connections := insertA cm.active_connections agent_id websocket,
     agent_hostnames := insertA cm.agent_hostnames agent_id hostname }, [])

/-- Model of `ConnectionManager.disconnect`: if the agent id is present in
`active_connections`, delete it there and (if present) delete it from
`agent_hostnames`; otherwise do nothing. No close is issued here either. -/
def ConnectionManager.disconnect (cm : ConnectionManager) (agent_id : Nat) :
    ConnectionManager :=
  if (lookupA cm.active_connections agent_id).isSome then
    { active_connections := eraseA cm.active_connections agent_id,
      agent_hostnames :=
        if (lookupA cm.agent_hostnames agent_id).isSome then
          eraseA cm.agent_hostnames agent_id
        else cm.agent_hostnames }
  else cm

/-- Model of `ConnectionManager.is_connected`. -/
def ConnectionManager.is_connected (cm : ConnectionManager) (agent_id : Nat) : Bool :=
  (lookupA cm.active_connections agent_id).isSome

/-- Model of `ConnectionManager.send_command`. The behaviour of the
underlying `websocket.send_text` is an oracle bit `sendOk`: `true` means
the write succeeds, `false` means it raises. Not connected: return
`false` untouched. Write raises: `disconnect` the agent and return
`false`. Otherwise return `true`. -/
def ConnectionManager.send_command (cm : ConnectionManager) (agent_id : Nat)
    (sendOk : Bool) : ConnectionManager × Bool :=
  if (lookupA cm.active_connections agent_id).isSome then
    if sendOk then (cm, true) else (cm.disconnect agent_id, false)
  else (cm, false)

/-! ## Reply processing (`main.py` lines 141-171) -/

/-- Model of the reply-processing body of the WebSocket read loop: fetch
the job by `response.job_id`; if present, overwrite its status (the
lowercased reply status), logs, error and `updated_at`, then — when the
job's `deployment_id` is truthy (`if job.deployment_id:` in Python: not
`None` and not `0`) and the deployment row exists — apply the deployment
status rule (`COMPLETED` deploy → `running`, `COMPLETED` stop →
`stopped`, `FAILED` → `failed`, otherwise unchanged) and overwrite its
`last_logs` / `last_error` / `updated_at`. A reply whose job id matches
no row is a no-op. -/
def handle_response (db : DB) (now : Nat) (r : Response) : DB :=
  match findBy Job.id db.jobs r.job_id with
  | none => db
  | some job =>
    let job' : Job :=
      { job with
        status := r.status.valueLower
        logs := some r.logs
        error := r.error
        updated_at := now }
    let db' : DB := { db with jobs := replaceBy Job.id db.jobs r.job_id job' }
    match job.deployment_id with
    | none => db'
    | some did =>
      if did = 0 then db'
      else
        match findBy Deployment.id db.deployments did with
        | none => db'
        | some dep =>
          let newStatus : String :=
            if r.status = ResponseStatus.COMPLETED then
              if job.command_type = CommandType.DEPLOY_COMPOSE.value then "running"
              else if job.command_type = CommandType.STOP_COMPOSE.value then "stopped"
              else dep.status
            else if r.status = ResponseStatus.FAILED then "failed"
            else dep.status
          let dep' : Deployment :=
            { dep with
              status := newStatus
              last_logs := some r.logs
              last_error := r.error
              updated_at := now }
          { db' with deployments := replaceBy Deployment.id db.deployments did dep' }

/-! ## Session teardown (`main.py` lines 177-188) -/

/-- Model of the `finally` block of `websocket_endpoint`: unregister the
agent from the connection manager and mark its durable row offline with a
fresh `last_seen`. Nothing else is touched — in particular no job row. -/
def agent_teardown (cm : ConnectionManager) (db : DB) (agent_id : Nat) (now : Nat) :
    ConnectionManager × DB :=
  let cm' := cm.disconnect agent_id
  let db' :=
    match findBy Agent.id db.agents agent_id with
    | none => db
    | some a =>
      { db with
        agents := replaceBy Agent.id db.agents agent_id
          { a with status := "offline", last_seen := now } }
  (cm', db')

/-! ## REST handlers (`main.py` lines 225-414) -/

/-- Request body of `POST /deploy` (`DeployRequest` in `schemas.py`). -/
structure DeployRequest where
  project_name : String
  compose_file_base64 : String
  agent_id : Option Nat
deriving DecidableEq, Repr

/-- Request body of `POST /projects/\x7bname\x7d/stop`. -/
structure StopRequest where
  agent_id : Option Nat
deriving DecidableEq, Repr

/-- Outcome of a REST handler: the successful response model, or an
`HTTPException(status_code, detail)`. -/
inductive ApiResult where
  | deployOk (job_id : String) (deployment_id : Nat) (status message : String)
  | stopOk (job_id status message : String)
  | statusOk (job_id status logs : String)
  | httpError (code : Nat) (detail : String)
deriving DecidableEq, Repr

/-- True exactly on the `httpError` outcomes. -/
def ApiResult.isError : ApiResult → Bool
  | .httpError _ _ => true
  | _ => false

/-- Agent resolution of `deploy_project`: with a truthy `request.agent_id`
(`if request.agent_id:` — `None` and `0` are falsy) fetch that row or
fail 404 "Agent not found"; otherwise take the first agent whose durable
status is "online" or fail 503 "No agents available". -/
def findTargetAgent (db : DB) (req : DeployRequest) : Except (Nat × String) Agent :=
  match req.agent_id with
  | some aid =>
    if aid = 0 then
      match db.agents.find? (fun a => a.status = "online") with
      | some a => .ok a
      | none => .error (503, "No agents available")
    else
      match findBy Agent.id db.agents aid with
      | some a => .ok a
      | none => .error (404, "Agent not found")
  | none =>
    match db.agents.find? (fun a => a.status = "online") with
    | some a => .ok a
    | none => .error (503, "No agents available")

/-- Model of `POST /deploy` (`deploy_project`): resolve the target agent;
reject 503 if it is not connected; create the deployment row (status
"pending", fresh autoincrement id) and the job row (status "queued",
correlation id `new_job_id`); send the command. On send failure mark the
job "failed" with the send error and reject 503; on success answer
"queued". -/
def deploy_project (db : DB) (cm : ConnectionManager) (req : DeployRequest)
    (new_job_id : String) (now : Nat) (sendOk : Bool) :
    DB × ConnectionManager × ApiResult :=
  match findTargetAgent db req with
  | .error e => (db, cm, .httpError e.1 e.2)
  | .ok agent =>
    if cm.is_connected agent.id then
      let dep : Deployment :=
        { id := db.next_dep_id
          project_name := req.project_name
          agent_id := agent.id
          status := "pending"
          last_logs := none
          last_error := none
          created_at := now
          updated_at := now }
      let job : Job :=
        { id := new_job_id
          deployment_id := some dep.id
          agent_id := agent.id
          command_type := CommandType.DEPLOY_COMPOSE.value
          status := "queued"
          logs := none
          error := none
          created_at := now
          updated_at := now }
      let db2 : DB :=
        { db with
          deployments := db.deployments ++ [dep]
          jobs := db.jobs ++ [job]
          next_dep_id := db.next_dep_id + 1 }
      let sent := cm.send_command agent.id sendOk
      if sent.2 then
        (db2, sent.1,
          .deployOk new_job_id dep.id "queued"
            ("Deployment queued on agent " ++ agent.hostname))
      else
        let job' : Job :=
          { job with status := "failed", error := some "Failed to send command to agent" }
        ({ db2 with jobs := replaceBy Job.id db2.jobs new_job_id job' }, sent.1,
          .httpError 503 "Failed to send command to agent")
    else
      (db, cm, .httpError 503 ("Agent " ++ toString agent.id ++ " is not connected"))

/-- The three synchronous rejection cases of `deploy_project` that occur
before any row is written: explicit agent id unknown, no agent online for
an unconstrained request, or resolved agent not connected. -/
def dispatchRejected (db : DB) (cm : ConnectionManager) (req : DeployRequest) : Bool :=
  match findTargetAgent db req with
  | .error _ => true
  | .ok a => !(cm.is_connected a.id)

/-- The element with the greatest `created_at` (ties: the earlier row),
the model of `.order_by(Deployment.created_at.desc())` followed by
`.first()`. -/
def latestBy : List Deployment → Option Deployment
  | [] => none
  | d :: ds =>
    match latestBy ds with
    | none => some d
    | some e => if e.created_at > d.created_at then some e else some d

/-- The deployment `stop_project` and `get_project_status` act on:
rows matching the project name, ordered by `created_at` descending,
first one. -/
def currentDeployment (deployments : List Deployment) (project_name : String) :
    Option Deployment :=
  latestBy (deployments.filter (fun d => d.project_name = project_name))

/-- Model of `POST /projects/\x7bname\x7d/stop` (`stop_project`): select the
current deployment of the project or fail 404; target agent is the
request's truthy `agent_id` or else the deployment's; reject 503 if not
connected; create a "queued" stop job and send, with the same send-failure
handling as `deploy_project`. -/
def stop_project (db : DB) (cm : ConnectionManager) (project_name : String)
    (req : StopRequest) (new_job_id : String) (now : Nat) (sendOk : Bool) :
    DB × ConnectionManager × ApiResult :=
  match currentDeployment db.deployments project_name with
  | none => (db, cm, .httpError 404 "Project not found")
  | some dep =>
    let agent_id :=
      match req.agent_id with
      | some a => if a = 0 then dep.agent_id else a
      | none => dep.agent_id
    if cm.is_connected agent_id then
      let job : Job :=
        { id := new_job_id
          deployment_id := some dep.id
          agent_id := agent_id
          command_type := CommandType.STOP_COMPOSE.value
          status := "queued"
          logs := none
          error := none
          created_at := now
          updated_at := now }
      let db1 : DB := { db with jobs := db.jobs ++ [job] }
      let sent := cm.send_command agent_id sendOk
      if sent.2 then
        (db1, sent.1,
          .stopOk new_job_id "queued" ("Stop command queued for project " ++ project_name))
      else
        let job' : Job :=
          { job with status := "failed", error := some "Failed to send command to agent" }
        ({ db1 with jobs := replaceBy Job.id db1.jobs new_job_id job' }, sent.1,
          .httpError 503 "Failed to send command to agent")
    else
      (db, cm, .httpError 503 ("Agent " ++ toString agent_id ++ " is not connected"))

/-- Model of `GET /projects/\x7bname\x7d/status` (`get_project_status`): same
selection of the current deployment, target agent is the deployment's,
then a "queued" STATUS job is created and sent. -/
def get_project_status (db : DB) (cm : ConnectionManager) (project_name : String)
    (new_job_id : String) (now : Nat) (sendOk : Bool) :
    DB × ConnectionManager × ApiResult :=
  match currentDeployment db.deployments project_name with
  | none => (db, cm, .httpError 404 "Project not found")
  | some dep =>
    let agent_id := dep.agent_id
    if cm.is_connected agent_id then
      let job : Job :=
        { id := new_job_id
          deployment_id := some dep.id
          agent_id := agent_id
          command_type := CommandType.STATUS.value
          status := "queued"
          logs := none
          error := none
          created_at := now
          updated_at := now }
      let db1 : DB := { db with jobs := db.jobs ++ [job] }
      let sent := cm.send_command agent_id sendOk
      if sent.2 then
        (db1, sent.1,
          .statusOk new_job_id "queued" ("Status check queued for project " ++ project_name))
      else
        let job' : Job :=
          { job with status := "failed", error := some "Failed to send command to agent" }
        ({ db1 with jobs := replaceBy Job.id db1.jobs new_job_id job' }, sent.1,
          .httpError 503 "Failed to send command to agent")
    else
      (db, cm, .httpError 503 ("Agent " ++ toString agent_id ++ " is not connected"))

/-! ## Operation sequences on the connection manager -/

/-- The operations that mutate the `ConnectionManager` in the source:
`connect`, `disconnect`, and `send_command` (whose write outcome is the
oracle bit carried by the operation). -/
inductive MOp where
  | connect (agent_id : Nat) (hostname : String) (websocket : Nat)
  | disconnect (agent_id : Nat)
  | send (agent_id : Nat) (sendOk : Bool)
deriving DecidableEq, Repr

/-- One operation applied to the manager state. -/
def stepM (cm : ConnectionManager) : MOp → ConnectionManager
  | .connect a h w => (cm.connect a h w).1
  | .disconnect a => cm.disconnect a
  | .send a ok => (cm.send_command a ok).1

/-- A sequence of operations applied to the freshly constructed manager. -/
def runOps (ops : List MOp) : ConnectionManager :=
  ops.foldl stepM initCM

/-- The two dicts of the manager have the same key set. -/
def keysAligned (cm : ConnectionManager) : Prop :=
  ∀ a : Nat, (lookupA cm.active_connections a).isSome
    = (lookupA cm.agent_hostnames a).isSome

/-! ## Concrete states used to evaluate the development -/

/-- An online agent row. -/
def exAgent1 : Agent :=
  { id := 1, hostname := "web-1", ip_address := none, status := "online",
    last_seen := 0, version := none, architecture := none, created_at := 0 }

/-- A pending deployment of project "x" on agent 1. -/
def exDep1 : Deployment :=
  { id := 1, project_name := "x", agent_id := 1, status := "pending",
    last_logs := none, last_error := none, created_at := 0, updated_at := 0 }

/-- A dispatched, still unanswered deploy job linked to `exDep1`. -/
def exJob1 : Job :=
  { id := "j1", deployment_id := some 1, agent_id := 1,
    command_type := "DEPLOY_COMPOSE", status := "queued",
    logs := none, error := none, created_at := 0, updated_at := 0 }

/-- Store holding `exAgent1`, `exDep1` and the queued `exJob1`. -/
def exDB : DB :=
  { agents := [exAgent1], deployments := [exDep1], jobs := [exJob1], next_dep_id := 2 }

/-- A first reply for job "j1": completed. -/
def exR1 : Response := { job_id := "j1", status := .COMPLETED, logs := "ok", error := none }

/-- A second reply for the same job "j1": failed. -/
def exR2 : Response :=
  { job_id := "j1", status := .FAILED, logs := "boom", error := some "err" }

/-- A stop job already in the terminal status "completed". -/
def exJob2 : Job :=
  { id := "j2", deployment_id := none, agent_id := 1,
    command_type := "STOP_COMPOSE", status := "completed",
    logs := some "done", error := none, created_at := 0, updated_at := 1 }

/-- Store holding agent 1 and the terminal `exJob2`. -/
def exDB1 : DB :=
  { agents := [exAgent1], deployments := [], jobs := [exJob2], next_dep_id := 1 }

/-- A late failed reply for the already-terminal job "j2". -/
def exRF : Response :=
  { job_id := "j2", status := .FAILED, logs := "late", error := some "late failure" }

/-- Manager state with agent 1 attached on WebSocket handle 10. -/
def cmA : ConnectionManager := (initCM.connect 1 "web-1" 10).1

/-- Deploy request with no explicit target agent. -/
def exReqAny : DeployRequest :=
  { project_name := "x", compose_file_base64 := "Y29tcG9zZQ==", agent_id := none }

/-- Deploy request explicitly targeting agent 1. -/
def exReq1 : DeployRequest :=
  { project_name := "x", compose_file_base64 := "Y29tcG9zZQ==", agent_id := some 1 }

/-- The freshly initialized empty store. -/
def exEmptyDB : DB := { agents := [], deployments := [], jobs := [], next_dep_id := 1 }

/-- A second, later deployment of the same project name "x". -/
def exDep2 : Deployment :=
  { id := 2, project_name := "x", agent_id := 1, status := "running",
    last_logs := none, last_error := none, created_at := 5, updated_at := 5 }

/-- Deployment history of project "x": `exDep1` then, later, `exDep2`. -/
def exDeps : List Deployment := [exDep1, exDep2]

/-! ## Association-list lemmas -/

/-- Lookup after erasing the same key fails. -/
theorem lookupA_erase_self {α : Type} (l : List (Nat × α)) (k : Nat) :
    lookupA (eraseA l k) k = none := by
  induction l with
  | nil => rfl
  | cons p t ih =>
    by_cases hp : p.1 = k
    · simpa [eraseA, hp] using ih
    · simpa [lookupA, eraseA, hp] using ih

/-- Erasure does not disturb other keys. -/
theorem lookupA_erase_ne {α : Type} (l : List (Nat × α)) {k k' : Nat}
    (h : k' ≠ k) : lookupA (eraseA l k) k' = lookupA l k' := by
  induction l with
  | nil => rfl
  | cons p t ih =>
    by_cases hp : p.1 = k
    · have hp' : ¬ p.1 = k' := fun hc => h (hc.symm.trans hp)
      have h1 : eraseA (p :: t) k = eraseA t k := by simp [eraseA, hp]
      rw [h1, ih]
      simp [lookupA, hp']
    · have h1 : eraseA (p :: t) k = p :: eraseA t k := by simp [eraseA, hp]
      rw [h1]
      by_cases hp' : p.1 = k'
      · simp [lookupA, hp']
      · simp [lookupA, hp', ih]

/-- Lookup after inserting the same key finds the new value. -/
theorem lookupA_insert_self {α : Type} (l : List (Nat × α)) (k : Nat) (v : α) :
    lookupA (insertA l k v) k = some v := by
  simp [lookupA, insertA]

/-- Insertion does not disturb other keys. -/
theorem lookupA_insert_ne {α : Type} (l : List (Nat × α)) {k k' : Nat} (v : α)
    (h : k' ≠ k) : lookupA (insertA l k v) k' = lookupA l k' := by
  simp only [lookupA, insertA]
  rw [if_neg (fun hc : k = k' => h (hc ▸ rfl))]
  exact lookupA_erase_ne l h

/-- Erasure yields a sublist. -/
theorem eraseA_sublist {α : Type} (l : List (Nat × α)) (k : Nat) :
    (eraseA l k).Sublist l := by
  induction l with
  | nil => simp [eraseA]
  | cons p t ih =>
    by_cases hp : p.1 = k
    · simpa [eraseA, hp] using ih.cons p
    · simpa [eraseA, hp] using ih.cons₂ p

/-- Keys with no binding are absent from the key list. -/
theorem not_mem_keys_of_lookupA_none {α : Type} {l : List (Nat × α)} {k : Nat}
    (h : lookupA l k = none) : k ∉ l.map Prod.fst := by
  induction l with
  | nil => simp
  | cons p t ih =>
    by_cases hp : p.1 = k
    · simp [lookupA, hp] at h
    · have h' : lookupA t k = none := by simpa [lookupA, hp] using h
      intro hmem
      rcases List.mem_cons.mp hmem with hc | hm
      · exact hp hc.symm
      · exact ih h' hm

/-- Key distinctness survives insertion. -/
theorem nodupKeys_insertA {α : Type} (l : List (Nat × α)) (k : Nat) (v : α)
    (h : nodupKeys l) : nodupKeys (insertA l k v) := by
  have hsub : ((eraseA l k).map Prod.fst).Sublist (l.map Prod.fst) :=
    (eraseA_sublist l k).map Prod.fst
  have herase : ((eraseA l k).map Prod.fst).Nodup := h.sublist hsub
  have hnot : k ∉ (eraseA l k).map Prod.fst :=
    not_mem_keys_of_lookupA_none (lookupA_erase_self l k)
  show (((k, v) :: eraseA l k).map Prod.fst).Nodup
  exact List.nodup_cons.mpr ⟨hnot, herase⟩

/-! ## Keyed-table lemmas -/

/-- A fetched row carries the key it was fetched by. -/
theorem findBy_key {α β : Type} [DecidableEq β] {key : α → β} {l : List α} {k : β} {x : α}
    (h : findBy key l k = some x) : key x = k := by
  induction l with
  | nil => cases h
  | cons y t ih =>
    by_cases hy : key y = k
    · rw [findBy, if_pos hy] at h
      cases h
      exact hy
    · rw [findBy, if_neg hy] at h
      exact ih h

/-- Fetch after a keyed overwrite at the same key: the overwriting row, when
the key was present. -/
theorem findBy_replaceBy_self {α β : Type} [DecidableEq β] (key : α → β) (l : List α)
    (k : β) (y : α) (hy : key y = k) :
    findBy key (replaceBy key l k y) k = (findBy key l k).map (fun _ => y) := by
  induction l with
  | nil => rfl
  | cons x t ih =>
    by_cases hx : key x = k
    · simp [findBy, replaceBy, hx, hy]
    · simpa [findBy, replaceBy, hx] using ih

/-- A keyed overwrite leaves fetches at other keys untouched. -/
theorem findBy_replaceBy_ne {α β : Type} [DecidableEq β] (key : α → β) (l : List α)
    {k k' : β} (y : α) (hy : key y = k) (h : k' ≠ k) :
    findBy key (replaceBy key l k y) k' = findBy key l k' := by
  have hkk' : ¬ k = k' := fun hc => h hc.symm
  induction l with
  | nil => rfl
  | cons x t ih =>
    by_cases hx : key x = k
    · have hy' : ¬ key y = k' := fun hc => h (hc.symm.trans hy)
      simpa [findBy, replaceBy, hx, hy', hkk'] using ih
    · by_cases hx' : key x = k'
      · simp [findBy, replaceBy, hx, hx', h]
      · simpa [findBy, replaceBy, hx, hx', h] using ih

/-- Fetching a key absent from a front segment continues in the back one. -/
theorem findBy_append_of_none {α β : Type} [DecidableEq β] {key : α → β}
    {l : List α} {k : β} (l' : List α) (h : findBy key l k = none) :
    findBy key (l ++ l') k = findBy key l' k := by
  induction l with
  | nil => rfl
  | cons x t ih =>
    by_cases hx : key x = k
    · rw [findBy, if_pos hx] at h
      cases h
    · rw [findBy, if_neg hx] at h
      simpa [findBy, hx] using ih h

/-! ## Reply processing: component views -/

/-- Jobs component of `handle_response` when the reply's job exists: the
matching row is overwritten with the reply's terminal fields, independent
of any deployment linkage. -/
theorem handle_response_jobs {db : DB} {now : Nat} {r : Response} {job : Job}
    (h : findBy Job.id db.jobs r.job_id = some job) :
    (handle_response db now r).jobs =
      replaceBy Job.id db.jobs r.job_id
        { job with
          status := r.status.valueLower
          logs := some r.logs
          error := r.error
          updated_at := now } := by
  unfold handle_response
  rw [h]
  cases hd : job.deployment_id with
  | none => simp [hd]
  | some did =>
    by_cases h0 : did = 0
    · simp [hd, h0]
    · cases hdep : findBy Deployment.id db.deployments did with
      | none => simp [hd, h0, hdep]
      | some dep => simp [hd, h0, hdep]

/-- Deployments component of `handle_response` when the reply's job exists
and is linked (truthily) to an existing deployment row: that row is
overwritten with the status transition of the source's if-chain plus the
reply's logs, error and timestamp. -/
theorem handle_response_deployments {db : DB} {now : Nat} {r : Response} {job : Job}
    {did : Nat} {dep : Deployment}
    (hjob : findBy Job.id db.jobs r.job_id = some job)
    (hdid : job.deployment_id = some did) (h0 : did ≠ 0)
    (hdep : findBy Deployment.id db.deployments did = some dep) :
    (handle_response db now r).deployments =
      replaceBy Deployment.id db.deployments did
        { dep with
          status :=
            if r.status = ResponseStatus.COMPLETED then
              if job.command_type = CommandType.DEPLOY_COMPOSE.value then "running"
              else if job.command_type = CommandType.STOP_COMPOSE.value then "stopped"
              else dep.status
            else if r.status = ResponseStatus.FAILED then "failed"
            else dep.status
          last_logs := some r.logs
          last_error := r.error
          updated_at := now } := by
  unfold handle_response
  rw [hjob]
  simp [hdid, h0, hdep]

/-- A reply whose job id matches no row changes nothing. -/
theorem handle_response_no_job {db : DB} {now : Nat} {r : Response}
    (h : findBy Job.id db.jobs r.job_id = none) :
    handle_response db now r = db := by
  unfold handle_response
  rw [h]

/-! ## Manager lemmas -/

/-- After `disconnect`, the agent is no longer connected. -/
theorem is_connected_disconnect_self (cm : ConnectionManager) (a : Nat) :
    (cm.disconnect a).is_connected a = false := by
  unfold ConnectionManager.disconnect ConnectionManager.is_connected
  by_cases h : (lookupA cm.active_connections a).isSome = true
  · rw [if_pos h]
    simp [lookupA_erase_self]
  · rw [if_neg h]
    simpa using h

/-! ## Claim C1 -/

/-- Claim C1, counterexample: with job "j1" already driven to the terminal
state "completed" (and its deployment to "running") by a first reply,
processing a second reply with the same job id does not leave the records
unchanged — the job table after the duplicate differs from the job table
after the first reply alone. -/
theorem duplicate_reply_not_noop_cex :
    (handle_response (handle_response exDB 1 exR1) 2 exR2).jobs ≠
      (handle_response exDB 1 exR1).jobs := by
  decide

/-- Claim C1 as amended: the reply handler keeps no correlation
bookkeeping; any reply whose job id matches an existing job row —
a second, duplicate reply included — is applied in full, overwriting the
job's status, logs, error and timestamp with the later reply's values
(last reply wins). -/
theorem duplicate_reply_applied_again {db : DB} {now : Nat} {r : Response} {job : Job}
    (h : findBy Job.id db.jobs r.job_id = some job) :
    findBy Job.id (handle_response db now r).jobs r.job_id =
      some { job with
             status := r.status.valueLower
             logs := some r.logs
             error := r.error
             updated_at := now } := by
  rw [handle_response_jobs h,
    findBy_replaceBy_self Job.id db.jobs r.job_id _ (by simpa using findBy_key h), h]
  rfl

/-- Claim C1 witness: the duplicate failed reply for "j1", arriving after
the completed one, overwrites the already-terminal job row. -/
theorem duplicate_reply_applied_again_w :
    findBy Job.id (handle_response (handle_response exDB 1 exR1) 2 exR2).jobs "j1" =
      some { id := "j1", deployment_id := some 1, agent_id := 1,
             command_type := "DEPLOY_COMPOSE", status := "failed",
             logs := some "boom", error := some "err",
             created_at := 0, updated_at := 2 } :=
  (@duplicate_reply_applied_again (handle_response exDB 1 exR1) 2 exR2
    { id := "j1", deployment_id := some 1, agent_id := 1,
      command_type := "DEPLOY_COMPOSE", status := "completed",
      logs := some "ok", error := none, created_at := 0, updated_at := 1 }
    (by decide)).trans (by decide)

/-! ## Claim C3 -/

/-- Claim C3, counterexample: job "j2" is in the terminal status
"completed", yet processing a later failed reply moves it to "failed" —
a transition does leave a terminal state. -/
theorem terminal_state_left_cex :
    (findBy Job.id exDB1.jobs "j2").map Job.status = some "completed" ∧
    (findBy Job.id (handle_response exDB1 3 exRF).jobs "j2").map Job.status =
      some "failed" := by
  decide

/-- Claim C3 as amended: the reply handler never consults the stored
status before writing; for a job in a terminal status ("completed" or
"failed"), any further matching reply still overwrites the status with
the reply's lowercased status. -/
theorem reply_overwrites_terminal {db : DB} {now : Nat} {r : Response} {job : Job}
    (h : findBy Job.id db.jobs r.job_id = some job)
    (hterm : job.status = "completed" ∨ job.status = "failed") :
    (findBy Job.id (handle_response db now r).jobs r.job_id).map Job.status =
      some r.status.valueLower := by
  rw [handle_response_jobs h,
    findBy_replaceBy_self Job.id db.jobs r.job_id _ (by simpa using findBy_key h), h]
  rfl

/-- Claim C3 witness: the completed job "j2" is moved to "failed" by the
late reply. -/
theorem reply_overwrites_terminal_w :
    (findBy Job.id (handle_response exDB1 3 exRF).jobs "j2").map Job.status =
      some "failed" :=
  @reply_overwrites_terminal exDB1 3 exRF exJob2 (by decide) (Or.inl (by decide))

/-! ## Claim C2 -/

/-- Claim C2, counterexample: registering a second connection (WebSocket
handle 20) for agent 1, which already holds a live session on handle 10,
installs the new session but closes nothing — both `connect` calls return
an empty list of closed sockets, so the superseded socket 10 is never
torn down. -/
theorem reconnect_does_not_close_old_cex :
    lookupA ((initCM.connect 1 "web-1" 10).1.connect 1 "web-1" 20).1.active_connections 1
        = some 20 ∧
    ((initCM.connect 1 "web-1" 10).1.connect 1 "web-1" 20).2 = [] ∧
    (initCM.connect 1 "web-1" 10).2 = [] := by
  decide

/-- Claim C2 as amended: at most one session is attached per identity —
`connect` overwrites the map entry for the agent id, and key distinctness
of the connection map is preserved — but the superseded session is not
torn down: `connect` closes no socket, the old handle is merely dropped
from the maps. -/
theorem connect_overwrites_without_close (cm : ConnectionManager) (a : Nat)
    (hst : String) (w : Nat) (hnd : nodupKeys cm.active_connections) :
    lookupA (cm.connect a hst w).1.active_connections a = some w ∧
    (cm.connect a hst w).2 = [] ∧
    nodupKeys (cm.connect a hst w).1.active_connections :=
  ⟨lookupA_insert_self cm.active_connections a w, rfl,
    nodupKeys_insertA cm.active_connections a w hnd⟩

/-- Claim C2 witness: reconnecting agent 1 onto handle 20 over its live
session on handle 10. -/
theorem connect_overwrites_without_close_w :
    lookupA (cmA.connect 1 "web-1" 20).1.active_connections 1 = some 20 ∧
    (cmA.connect 1 "web-1" 20).2 = [] ∧
    nodupKeys (cmA.connect 1 "web-1" 20).1.active_connections :=
  connect_overwrites_without_close cmA 1 "web-1" 20 (by decide)

/-! ## Claim C4 -/

/-- Claim C4, counterexample: agent 1 is torn down while its dispatched
job "j1" has received no reply; the job table is untouched by the
teardown and "j1" is still "queued", not "failed". -/
theorem teardown_leaves_job_queued_cex :
    ((agent_teardown cmA exDB 1 9).2).jobs = exDB.jobs ∧
    (findBy Job.id ((agent_teardown cmA exDB 1 9).2).jobs "j1").map Job.status =
      some "queued" := by
  decide

/-- Claim C4 as amended: session teardown unregisters the connection and
marks the agent row offline, but never touches job or deployment rows —
a dispatched job still awaiting its reply stays "queued" forever rather
than transitioning to "failed". -/
theorem agent_teardown_effect (cm : ConnectionManager) (db : DB) (agent_id now : Nat) :
    ((agent_teardown cm db agent_id now).2).jobs = db.jobs ∧
    ((agent_teardown cm db agent_id now).2).deployments = db.deployments ∧
    (agent_teardown cm db agent_id now).1 = cm.disconnect agent_id := by
  unfold agent_teardown
  cases h : findBy Agent.id db.agents agent_id <;> simp [h]

/-! ## Claim C5 -/

/-- Claim C5: for a reply whose job is linked to an existing deployment,
the status transition applied to that deployment is exactly the source's
rule — a completed reply to a deploy command sets "running", a completed
reply to a stop command sets "stopped", any failed reply sets "failed",
and a completed reply to any other command type leaves the status as it
was. -/
theorem reply_deployment_status_rule {db : DB} {now : Nat} {r : Response} {job : Job}
    {did : Nat} {dep : Deployment}
    (hjob : findBy Job.id db.jobs r.job_id = some job)
    (hdid : job.deployment_id = some did) (h0 : did ≠ 0)
    (hdep : findBy Deployment.id db.deployments did = some dep) :
    ((r.status = ResponseStatus.COMPLETED ∧
        job.command_type = CommandType.DEPLOY_COMPOSE.value) →
      (findBy Deployment.id (handle_response db now r).deployments did).map
          Deployment.status = some "running") ∧
    ((r.status = ResponseStatus.COMPLETED ∧
        job.command_type = CommandType.STOP_COMPOSE.value) →
      (findBy Deployment.id (handle_response db now r).deployments did).map
          Deployment.status = some "stopped") ∧
    (r.status = ResponseStatus.FAILED →
      (findBy Deployment.id (handle_response db now r).deployments did).map
          Deployment.status = some "failed") ∧
    ((r.status = ResponseStatus.COMPLETED ∧
        job.command_type ≠ CommandType.DEPLOY_COMPOSE.value ∧
        job.command_type ≠ CommandType.STOP_COMPOSE.value) →
      (findBy Deployment.id (handle_response db now r).deployments did).map
          Deployment.status = some dep.status) := by
  have hmain : (findBy Deployment.id (handle_response db now r).deployments did).map
      Deployment.status =
      some (if r.status = ResponseStatus.COMPLETED then
              if job.command_type = CommandType.DEPLOY_COMPOSE.value then "running"
              else if job.command_type = CommandType.STOP_COMPOSE.value then "stopped"
              else dep.status
            else if r.status = ResponseStatus.FAILED then "failed"
            else dep.status) := by
    rw [handle_response_deployments hjob hdid h0 hdep,
      findBy_replaceBy_self Deployment.id db.deployments did _
        (by simpa using findBy_key hdep), hdep]
    rfl
  refine ⟨?_, ?_, ?_, ?_⟩
  · rintro ⟨hs, hc⟩
    rw [hmain]
    simp [hs, hc]
  · rintro ⟨hs, hc⟩
    have hsd : ¬ CommandType.STOP_COMPOSE.value = CommandType.DEPLOY_COMPOSE.value := by
      decide
    rw [hmain]
    simp [hs, hc, hsd]
  · intro hs
    rw [hmain]
    simp [hs]
  · rintro ⟨hs, hc1, hc2⟩
    rw [hmain]
    simp [hs, hc1, hc2]

/-- Claim C5 witness: the completed deploy reply for job "j1" moves its
linked deployment 1 to "running". -/
theorem reply_deployment_status_rule_w :
    (findBy Deployment.id (handle_response exDB 1 exR1).deployments 1).map
        Deployment.status = some "running" :=
  (@reply_deployment_status_rule exDB 1 exR1 exJob1 1 exDep1
      (by decide) (by decide) (by decide) (by decide)).1 ⟨by decide, by decide⟩

/-! ## Claim C6 -/

/-- Rejections of agent resolution carry status code 404 or 503. -/
theorem findTargetAgent_error_code {db : DB} {req : DeployRequest} {e : Nat × String}
    (h : findTargetAgent db req = .error e) : e.1 = 404 ∨ e.1 = 503 := by
  unfold findTargetAgent at h
  repeat' split at h
  all_goals first
    | exact (Except.noConfusion h)
    | (rw [← Except.error.inj h]; decide)

/-- Claim C6: when agent resolution fails (explicit id unknown, no agent
online, or resolved agent not connected), `deploy_project` rejects the
request with a 404 or 503 and writes nothing — the store and the
connection manager come back unchanged, so no deployment row, no job row
and no correlation state is created. -/
theorem deploy_rejected_creates_nothing (db : DB) (cm : ConnectionManager)
    (req : DeployRequest) (jid : String) (now : Nat) (sendOk : Bool)
    (h : dispatchRejected db cm req = true) :
    (deploy_project db cm req jid now sendOk).1 = db ∧
    (deploy_project db cm req jid now sendOk).2.1 = cm ∧
    ∃ c d, (deploy_project db cm req jid now sendOk).2.2 = ApiResult.httpError c d ∧
      (c = 404 ∨ c = 503) := by
  unfold dispatchRejected at h
  unfold deploy_project
  cases hta : findTargetAgent db req with
  | error e =>
    exact ⟨rfl, rfl, e.1, e.2, rfl, findTargetAgent_error_code hta⟩
  | ok a =>
    rw [hta] at h
    simp only [Bool.not_eq_true'] at h
    refine ⟨?_, ?_, 503, "Agent " ++ toString a.id ++ " is not connected", ?_,
        Or.inr rfl⟩ <;>
      simp [h]

/-- Claim C6 witness: a deploy request against an empty store (no agent
exists, none online) is rejected and creates nothing. -/
theorem deploy_rejected_creates_nothing_w :
    (deploy_project exEmptyDB initCM exReqAny "j" 0 true).1 = exEmptyDB ∧
    (deploy_project exEmptyDB initCM exReqAny "j" 0 true).2.1 = initCM ∧
    ∃ c d, (deploy_project exEmptyDB initCM exReqAny "j" 0 true).2.2 =
        ApiResult.httpError c d ∧ (c = 404 ∨ c = 503) :=
  deploy_rejected_creates_nothing exEmptyDB initCM exReqAny "j" 0 true (by decide)

/-! ## Claims C7 and C10: the send-failure path of deploy -/

/-- Full output of `deploy_project` on the send-failure path: the
deployment row is appended as created (status "pending"), the job row is
appended and then overwritten to "failed" with the send error, the agent
is disconnected, and the caller gets the 503 rejection. -/
theorem deploy_project_send_failed_eq (db : DB) (cm : ConnectionManager)
    (req : DeployRequest) (jid : String) (now : Nat) (a : Agent)
    (hres : findTargetAgent db req = .ok a)
    (hconn : cm.is_connected a.id = true) :
    deploy_project db cm req jid now false =
      ({ agents := db.agents
         deployments := db.deployments ++
           [{ id := db.next_dep_id, project_name := req.project_name, agent_id := a.id,
              status := "pending", last_logs := none, last_error := none,
              created_at := now, updated_at := now }]
         jobs := replaceBy Job.id
           (db.jobs ++
             [{ id := jid, deployment_id := some db.next_dep_id, agent_id := a.id,
                command_type := "DEPLOY_COMPOSE", status := "queued", logs := none,
                error := none, created_at := now, updated_at := now }])
           jid
           { id := jid, deployment_id := some db.next_dep_id, agent_id := a.id,
             command_type := "DEPLOY_COMPOSE", status := "failed", logs := none,
             error := some "Failed to send command to agent", created_at := now,
             updated_at := now }
         next_dep_id := db.next_dep_id + 1 },
       cm.disconnect a.id,
       ApiResult.httpError 503 "Failed to send command to agent") := by
  have hconn' : (lookupA cm.active_connections a.id).isSome = true := hconn
  unfold deploy_project
  rw [hres]
  simp [hconn, ConnectionManager.send_command, hconn', CommandType.value]

/-- Claim C7: when the write to the agent's session fails, the agent is
removed from the connected set, the job created by the request is marked
"failed" with the send error, and the caller receives the 503 rejection. -/
theorem deploy_send_failure_effect (db : DB) (cm : ConnectionManager)
    (req : DeployRequest) (jid : String) (now : Nat) (a : Agent)
    (hres : findTargetAgent db req = .ok a)
    (hconn : cm.is_connected a.id = true)
    (hfresh : findBy Job.id db.jobs jid = none) :
    (deploy_project db cm req jid now false).2.2 =
        ApiResult.httpError 503 "Failed to send command to agent" ∧
    ((deploy_project db cm req jid now false).2.1).is_connected a.id = false ∧
    (findBy Job.id (deploy_project db cm req jid now false).1.jobs jid).map Job.status =
        some "failed" ∧
    (findBy Job.id (deploy_project db cm req jid now false).1.jobs jid).bind Job.error =
        some "Failed to send command to agent" := by
  have hout := deploy_project_send_failed_eq db cm req jid now a hres hconn
  have hfind : findBy Job.id (deploy_project db cm req jid now false).1.jobs jid =
      some { id := jid, deployment_id := some db.next_dep_id, agent_id := a.id,
             command_type := "DEPLOY_COMPOSE", status := "failed", logs := none,
             error := some "Failed to send command to agent", created_at := now,
             updated_at := now } := by
    rw [hout]
    rw [findBy_replaceBy_self Job.id _ jid _ rfl]
    rw [findBy_append_of_none _ hfresh]
    simp [findBy]
  refine ⟨by rw [hout], ?_, by rw [hfind]; rfl, by rw [hfind]; rfl⟩
  rw [hout]
  exact is_connected_disconnect_self cm a.id

/-- Claim C7 witness: deploying to the connected agent 1 while the socket
write fails. -/
theorem deploy_send_failure_effect_w :
    (deploy_project exDB cmA exReq1 "jw" 7 false).2.2 =
        ApiResult.httpError 503 "Failed to send command to agent" ∧
    ((deploy_project exDB cmA exReq1 "jw" 7 false).2.1).is_connected 1 = false ∧
    (findBy Job.id (deploy_project exDB cmA exReq1 "jw" 7 false).1.jobs "jw").map
        Job.status = some "failed" ∧
    (findBy Job.id (deploy_project exDB cmA exReq1 "jw" 7 false).1.jobs "jw").bind
        Job.error = some "Failed to send command to agent" :=
  deploy_send_failure_effect exDB cmA exReq1 "jw" 7 exAgent1
    rfl (by decide) (by decide)

/-- Claim C10: on the same send-failure path, the deployment table is
changed only by appending the row this request created, still in status
"pending" with no logs and no error — the job is the only record marked
failed. -/
theorem deploy_send_failure_deployment_frame (db : DB) (cm : ConnectionManager)
    (req : DeployRequest) (jid : String) (now : Nat) (a : Agent)
    (hres : findTargetAgent db req = .ok a)
    (hconn : cm.is_connected a.id = true) :
    (deploy_project db cm req jid now false).1.deployments =
      db.deployments ++
        [{ id := db.next_dep_id, project_name := req.project_name, agent_id := a.id,
           status := "pending", last_logs := none, last_error := none,
           created_at := now, updated_at := now }] := by
  rw [deploy_project_send_failed_eq db cm req jid now a hres hconn]

/-- Claim C10 witness: the deployment created by the failing deploy of
project "x" stays "pending" while its job is failed. -/
theorem deploy_send_failure_deployment_frame_w :
    (deploy_project exDB cmA exReq1 "jw" 7 false).1.deployments =
      exDB.deployments ++
        [{ id := 2, project_name := "x", agent_id := 1, status := "pending",
           last_logs := none, last_error := none, created_at := 7, updated_at := 7 }] :=
  deploy_send_failure_deployment_frame exDB cmA exReq1 "jw" 7 exAgent1
    rfl (by decide)

/-! ## Claim C8 -/

/-- On a list whose `created_at` values are strictly increasing, the
maximum-`created_at` element picked by `latestBy` is the last element. -/
theorem latestBy_eq_getLast (m : List Deployment)
    (h : m.Pairwise (fun d e => d.created_at < e.created_at)) :
    latestBy m = m.getLast? := by
  induction m with
  | nil => rfl
  | cons d ds ih =>
    cases ds with
    | nil => simp [latestBy]
    | cons e ts =>
      have hpc := List.pairwise_cons.mp h
      have ih' := ih hpc.2
      have hne : (e :: ts) ≠ ([] : List Deployment) := by simp
      have hx : (e :: ts).getLast? = some ((e :: ts).getLast hne) :=
        List.getLast?_eq_getLast_of_ne_nil hne
      have hstep : latestBy (d :: e :: ts) =
          match latestBy (e :: ts) with
          | none => some d
          | some x => if x.created_at > d.created_at then some x else some d := rfl
      rw [hstep, ih', hx]
      show (if ((e :: ts).getLast hne).created_at > d.created_at
            then some ((e :: ts).getLast hne) else some d) = (d :: e :: ts).getLast?
      have hlt : d.created_at < ((e :: ts).getLast hne).created_at :=
        hpc.1 _ (List.getLast_mem hne)
      rw [if_pos hlt, List.getLast?_cons_cons, hx]

/-- Claim C8: the deployment that `stop_project` and `get_project_status`
act on — `currentDeployment`, the first row of the name-filtered table
ordered by `created_at` descending — is the most recently created
deployment of that project name, also when several deployments share the
name. The hypothesis pins down the autoincrement reality that rows are
created with strictly increasing timestamps. -/
theorem current_deployment_is_most_recent (l : List Deployment) (p : String)
    (hmono : l.Pairwise (fun d e => d.created_at < e.created_at)) :
    currentDeployment l p = (l.filter (fun d => d.project_name = p)).getLast? := by
  unfold currentDeployment
  exact latestBy_eq_getLast _ (hmono.sublist (List.filter_sublist l))

/-- Claim C8 witness: of the two deployments named "x", the later
`exDep2` is selected. -/
theorem current_deployment_is_most_recent_w :
    currentDeployment exDeps "x" = some exDep2 :=
  (current_deployment_is_most_recent exDeps "x" (by decide)).trans (by decide)

/-! ## Claim C9 -/

/-- Alignment of the two maps survives `disconnect`. -/
theorem keysAligned_disconnect (cm : ConnectionManager) (a : Nat)
    (h : keysAligned cm) : keysAligned (cm.disconnect a) := by
  unfold ConnectionManager.disconnect
  by_cases hc : (lookupA cm.active_connections a).isSome = true
  · rw [if_pos hc]
    have hh : (lookupA cm.agent_hostnames a).isSome = true := by rw [← h a]; exact hc
    rw [if_pos hh]
    intro x
    by_cases hx : x = a
    · subst hx
      simp [lookupA_erase_self]
    · simp only [lookupA_erase_ne _ hx]
      exact h x
  · rw [if_neg hc]
    exact h

/-- Alignment of the two maps survives every operation. -/
theorem keysAligned_stepM (cm : ConnectionManager) (op : MOp)
    (h : keysAligned cm) : keysAligned (stepM cm op) := by
  cases op with
  | connect a hn w =>
    intro x
    by_cases hx : x = a
    · subst hx
      simp [stepM, ConnectionManager.connect, lookupA_insert_self]
    · simp only [stepM, ConnectionManager.connect,
        lookupA_insert_ne _ _ hx]
      exact h x
  | disconnect a =>
    exact keysAligned_disconnect cm a h
  | send a ok =>
    show keysAligned (cm.send_command a ok).1
    unfold ConnectionManager.send_command
    by_cases hc : (lookupA cm.active_connections a).isSome = true
    · rw [if_pos hc]
      cases ok
      · simpa using keysAligned_disconnect cm a h
      · simpa using h
    · rw [if_neg hc]
      simpa using h

/-- Claim C9: starting from the freshly constructed manager, after any
sequence of `connect`, `disconnect` and `send_command` operations the two
dicts `active_connections` and `agent_hostnames` have exactly the same
key set — an agent id is bound in one iff it is bound in the other. -/
theorem manager_maps_key_sets_equal (ops : List MOp) : keysAligned (runOps ops) := by
  have main : ∀ (l : List MOp) (cm : ConnectionManager), keysAligned cm →
      keysAligned (l.foldl stepM cm) := by
    intro l
    induction l with
    | nil => exact fun cm h => h
    | cons op t ih => exact fun cm h => ih _ (keysAligned_stepM cm op h)
  exact main ops initCM (fun a => rfl)

end InstaDeploy
